import Mathlib

/-!
Shallow embedding of the diabetes-tracker core (unit conversion, entry store,
preference store, recommendation fallbacks, and the log-entry route) together
with theorems settling the specification claims.

Numeric values are modelled as rationals; `round(x, 1)` is modelled as
round-half-up to one decimal (the spec leaves the tie-breaking mode free, and
no claim exercises an exact tie).
-/

namespace UnitConverter

/-- Conversion factor, source constant `CONVERSION_FACTOR = 18.018`. -/
def CONVERSION_FACTOR : ℚ := 18018 / 1000

/-- Python `round(x, 1)`: round to one decimal place. -/
def round1 (x : ℚ) : ℚ := (round (10 * x) : ℤ) / 10

/-- Source `UnitConverter.mg_dl_to_mmol_l`. -/
def mg_dl_to_mmol_l (mg_dl_value : ℚ) : ℚ := round1 (mg_dl_value / CONVERSION_FACTOR)

/-- Source `UnitConverter.mmol_l_to_mg_dl`. -/
def mmol_l_to_mg_dl (mmol_l_value : ℚ) : ℚ := round1 (mmol_l_value * CONVERSION_FACTOR)

/-- Errors raised by the converter (Python `ValueError`s). -/
inductive ConvError where
  | unsupportedConversion (from_units to_units : String)
  | unsupportedUnits (units : String)
deriving DecidableEq

/-- Source `UnitConverter.convert_to_user_units`. -/
def convert_to_user_units (value : ℚ) (from_units to_units : String) : Except ConvError ℚ :=
  if from_units = to_units then .ok value
  else if from_units = "mg/dL" ∧ to_units = "mmol/L" then .ok (mg_dl_to_mmol_l value)
  else if from_units = "mmol/L" ∧ to_units = "mg/dL" then .ok (mmol_l_to_mg_dl value)
  else .error (.unsupportedConversion from_units to_units)

/-- Source `UnitConverter.get_validation_range`. -/
def get_validation_range (units : String) : Except ConvError (ℚ × ℚ) :=
  if units = "mg/dL" then .ok (50, 500)
  else if units = "mmol/L" then .ok (28/10, 278/10)
  else .error (.unsupportedUnits units)

/-- The spec's `toCanonical(value, fromUnit)`: convert into the canonical unit mg/dL. -/
def toCanonical (value : ℚ) (from_units : String) : Except ConvError ℚ :=
  convert_to_user_units value from_units "mg/dL"

/-- The spec's `fromCanonical(value_mg_dl, toUnit)`: convert out of the canonical unit. -/
def fromCanonical (value_mg_dl : ℚ) (to_units : String) : Except ConvError ℚ :=
  convert_to_user_units value_mg_dl "mg/dL" to_units

theorem abs_round1_sub_le (x : ℚ) : |round1 x - x| ≤ 1 / 20 := by
  have h := abs_sub_round (10 * x : ℚ)
  rw [abs_sub_comm] at h
  have hx : round1 x - x = (((round (10 * x) : ℤ) : ℚ) - 10 * x) / 10 := by
    rw [round1]; ring
  rw [hx, abs_div]
  rw [show |(10 : ℚ)| = 10 by norm_num]
  linarith

end UnitConverter

/-- C2: for every glucose value v and supported unit u, converting v to the
canonical unit and back (`fromCanonical(toCanonical(v, u), u)`) returns v up to
one decimal place of rounding tolerance. -/
theorem roundtrip_within_tolerance (v : ℚ) (u : String)
    (hu : u = "mg/dL" ∨ u = "mmol/L") :
    ∃ c r, UnitConverter.toCanonical v u = .ok c ∧
      UnitConverter.fromCanonical c u = .ok r ∧ |r - v| ≤ 1 / 10 := by
  rcases hu with hu | hu <;> subst hu
  · refine ⟨v, v, ?_, ?_, ?_⟩
    · simp [UnitConverter.toCanonical, UnitConverter.convert_to_user_units]
    · simp [UnitConverter.fromCanonical, UnitConverter.convert_to_user_units]
    · simp
  · refine ⟨UnitConverter.mmol_l_to_mg_dl v,
      UnitConverter.mg_dl_to_mmol_l (UnitConverter.mmol_l_to_mg_dl v), ?_, ?_, ?_⟩
    · simp [UnitConverter.toCanonical, UnitConverter.convert_to_user_units]
    · simp [UnitConverter.fromCanonical, UnitConverter.convert_to_user_units]
    · rw [UnitConverter.mg_dl_to_mmol_l, UnitConverter.mmol_l_to_mg_dl]
      have hF : (1 : ℚ) ≤ UnitConverter.CONVERSION_FACTOR := by
        rw [UnitConverter.CONVERSION_FACTOR]; norm_num
      have hF0 : (0 : ℚ) < UnitConverter.CONVERSION_FACTOR := by linarith
      have h1 := UnitConverter.abs_round1_sub_le
        (UnitConverter.round1 (v * UnitConverter.CONVERSION_FACTOR) /
          UnitConverter.CONVERSION_FACTOR)
      have h2 := UnitConverter.abs_round1_sub_le (v * UnitConverter.CONVERSION_FACTOR)
      have h3 : |UnitConverter.round1 (v * UnitConverter.CONVERSION_FACTOR) /
          UnitConverter.CONVERSION_FACTOR - v| ≤ 1 / 20 := by
        have hrw : UnitConverter.round1 (v * UnitConverter.CONVERSION_FACTOR) /
            UnitConverter.CONVERSION_FACTOR - v =
            (UnitConverter.round1 (v * UnitConverter.CONVERSION_FACTOR) -
              v * UnitConverter.CONVERSION_FACTOR) / UnitConverter.CONVERSION_FACTOR := by
          field_simp
          ring
        rw [hrw, abs_div, abs_of_pos hF0]
        calc |UnitConverter.round1 (v * UnitConverter.CONVERSION_FACTOR) -
            v * UnitConverter.CONVERSION_FACTOR| / UnitConverter.CONVERSION_FACTOR
            ≤ |UnitConverter.round1 (v * UnitConverter.CONVERSION_FACTOR) -
              v * UnitConverter.CONVERSION_FACTOR| / 1 := by
              apply div_le_div_of_nonneg_left (abs_nonneg _) (by norm_num) hF
          _ ≤ 1 / 20 := by rw [div_one]; exact h2
      calc |UnitConverter.round1 (UnitConverter.round1 (v * UnitConverter.CONVERSION_FACTOR) /
            UnitConverter.CONVERSION_FACTOR) - v|
          ≤ |UnitConverter.round1 (UnitConverter.round1 (v * UnitConverter.CONVERSION_FACTOR) /
              UnitConverter.CONVERSION_FACTOR) -
              UnitConverter.round1 (v * UnitConverter.CONVERSION_FACTOR) /
              UnitConverter.CONVERSION_FACTOR| +
            |UnitConverter.round1 (v * UnitConverter.CONVERSION_FACTOR) /
              UnitConverter.CONVERSION_FACTOR - v| := abs_sub_le _ _ _
        _ ≤ 1 / 20 + 1 / 20 := add_le_add h1 h3
        _ ≤ 1 / 10 := by norm_num

/-- C2 witness: the round trip at 5.5 mmol/L stays within a tenth. -/
theorem roundtrip_within_tolerance_witness :
    ∃ c r, UnitConverter.toCanonical (11/2) "mmol/L" = .ok c ∧
      UnitConverter.fromCanonical c "mmol/L" = .ok r ∧ |r - 11/2| ≤ 1 / 10 :=
  roundtrip_within_tolerance (11/2) "mmol/L" (Or.inr rfl)

/-- C7 counterexample: converting 100 mg/dL to mmol/L yields
round(100/18.018, 1) = 5.6, not 5.5 as the claim states (100/18.018 is
5.55000…, which rounds up at the first decimal). -/
theorem mg_dl_100_to_mmol_l_is_5_6 :
    UnitConverter.mg_dl_to_mmol_l 100 = 5.6 ∧ UnitConverter.mg_dl_to_mmol_l 100 ≠ 5.5 := by
  constructor <;>
    norm_num [UnitConverter.mg_dl_to_mmol_l, UnitConverter.round1,
      UnitConverter.CONVERSION_FACTOR, round_eq]

/-- C7 amended: conversion uses the literal factor 18.018 with rounding to one
decimal place; converting 100 mg/dL to mmol/L yields round(100/18.018, 1) = 5.6,
and converting 5.5 mmol/L to canonical yields round(5.5*18.018, 1) = 99.1. -/
theorem conversion_literal_values :
    UnitConverter.CONVERSION_FACTOR = 18.018 ∧
    UnitConverter.mg_dl_to_mmol_l 100 = UnitConverter.round1 (100 / 18.018) ∧
    UnitConverter.mg_dl_to_mmol_l 100 = 5.6 ∧
    UnitConverter.mmol_l_to_mg_dl 5.5 = UnitConverter.round1 (5.5 * 18.018) ∧
    UnitConverter.mmol_l_to_mg_dl 5.5 = 99.1 := by
  refine ⟨by norm_num [UnitConverter.CONVERSION_FACTOR], ?_, ?_, ?_, ?_⟩ <;>
    norm_num [UnitConverter.mg_dl_to_mmol_l, UnitConverter.mmol_l_to_mg_dl,
      UnitConverter.round1, UnitConverter.CONVERSION_FACTOR, round_eq]

/-- C8 counterexample: when source and target units are equal but unsupported,
conversion succeeds as the identity instead of failing with UnsupportedUnit —
the identity branch is checked before unit support. -/
theorem convert_unsupported_identity_counterexample :
    UnitConverter.convert_to_user_units 1 "banana" "banana" = .ok 1 ∧
    "banana" ≠ "mg/dL" ∧ "banana" ≠ "mmol/L" := by
  refine ⟨?_, by decide, by decide⟩
  simp [UnitConverter.convert_to_user_units]

/-- C8 amended: conversion is the exact identity (no rounding) whenever source
equals target, even for unsupported units; for differing units it succeeds on
the two supported directions (mg/dL→mmol/L and mmol/L→mg/dL) and fails with
the unsupported-unit error exactly when the pair is neither of them — the
final conjunct states that biconditional. -/
theorem convert_identity_and_unsupported (v : ℚ) (f t : String) :
    (f = t → UnitConverter.convert_to_user_units v f t = .ok v) ∧
    (f ≠ t → (f = "mg/dL" ∧ t = "mmol/L") →
      UnitConverter.convert_to_user_units v f t =
        .ok (UnitConverter.mg_dl_to_mmol_l v)) ∧
    (f ≠ t → (f = "mmol/L" ∧ t = "mg/dL") →
      UnitConverter.convert_to_user_units v f t =
        .ok (UnitConverter.mmol_l_to_mg_dl v)) ∧
    (f ≠ t → ¬(f = "mg/dL" ∧ t = "mmol/L") → ¬(f = "mmol/L" ∧ t = "mg/dL") →
      UnitConverter.convert_to_user_units v f t =
        .error (.unsupportedConversion f t)) ∧
    (f ≠ t →
      ((∃ e, UnitConverter.convert_to_user_units v f t = .error e) ↔
        ¬((f = "mg/dL" ∧ t = "mmol/L") ∨ (f = "mmol/L" ∧ t = "mg/dL")))) := by
  have hid : f = t → UnitConverter.convert_to_user_units v f t = .ok v := by
    intro h
    simp [UnitConverter.convert_to_user_units, h]
  have hok1 : f ≠ t → (f = "mg/dL" ∧ t = "mmol/L") →
      UnitConverter.convert_to_user_units v f t =
        .ok (UnitConverter.mg_dl_to_mmol_l v) := by
    rintro h1 ⟨hf, ht⟩
    subst hf
    subst ht
    simp [UnitConverter.convert_to_user_units]
  have hok2 : f ≠ t → (f = "mmol/L" ∧ t = "mg/dL") →
      UnitConverter.convert_to_user_units v f t =
        .ok (UnitConverter.mmol_l_to_mg_dl v) := by
    rintro h1 ⟨hf, ht⟩
    subst hf
    subst ht
    simp [UnitConverter.convert_to_user_units]
  have herr : f ≠ t → ¬(f = "mg/dL" ∧ t = "mmol/L") → ¬(f = "mmol/L" ∧ t = "mg/dL") →
      UnitConverter.convert_to_user_units v f t =
        .error (.unsupportedConversion f t) := by
    intro h1 h2 h3
    simp [UnitConverter.convert_to_user_units, h1, h2, h3]
  refine ⟨hid, hok1, hok2, herr, ?_⟩
  intro h1
  constructor
  · rintro ⟨e, he⟩ hsup
    rcases hsup with hp | hp
    · rw [hok1 h1 hp] at he
      exact Except.noConfusion he
    · rw [hok2 h1 hp] at he
      exact Except.noConfusion he
  · intro hn
    rw [not_or] at hn
    exact ⟨.unsupportedConversion f t, herr h1 hn.1 hn.2⟩

/-- C8 amended witness: identity at an unsupported unit, failure on an
unsupported cross conversion, and success on a supported cross conversion. -/
theorem convert_identity_and_unsupported_witness :
    UnitConverter.convert_to_user_units 7 "x" "x" = .ok 7 ∧
    UnitConverter.convert_to_user_units 7 "x" "y" =
      .error (.unsupportedConversion "x" "y") ∧
    UnitConverter.convert_to_user_units 7 "mmol/L" "mg/dL" =
      .ok (UnitConverter.mmol_l_to_mg_dl 7) ∧
    ¬∃ e, UnitConverter.convert_to_user_units 7 "mg/dL" "mmol/L" = .error e :=
  ⟨(convert_identity_and_unsupported 7 "x" "x").1 rfl,
   (convert_identity_and_unsupported 7 "x" "y").2.2.2.1 (by decide) (by decide)
     (by decide),
   (convert_identity_and_unsupported 7 "mmol/L" "mg/dL").2.2.1 (by decide) ⟨rfl, rfl⟩,
   fun he =>
     (((convert_identity_and_unsupported 7 "mg/dL" "mmol/L").2.2.2.2
       (by decide)).mp he) (Or.inl ⟨rfl, rfl⟩)⟩

/-- A point in time, modelling the `datetime` values stored in the database.
`tod` is the time of day (an opaque sub-day tick used only for ordering). -/
structure Timestamp where
  year : ℕ
  month : ℕ
  day : ℕ
  tod : ℕ
deriving DecidableEq

/-- Total order key for timestamps (calendar-lexicographic). -/
def Timestamp.key (t : Timestamp) : ℕ :=
  ((t.year * 100 + t.month) * 100 + t.day) * 100000 + t.tod

/-- Zero-pad a numeral to two digits, as `strftime` does for `%m`/`%d`. -/
def pad2 (n : ℕ) : String := if n < 10 then "0" ++ toString n else toString n

/-- Zero-pad a numeral to four digits, as `strftime` does for `%Y`. -/
def pad4 (n : ℕ) : String :=
  if n < 10 then "000" ++ toString n
  else if n < 100 then "00" ++ toString n
  else if n < 1000 then "0" ++ toString n
  else toString n

/-- `entry.date.strftime("%m/%d")`. -/
def Timestamp.strftime_md (t : Timestamp) : String := pad2 t.month ++ "/" ++ pad2 t.day

/-- `entry.date.strftime("%Y-%m-%d")`. -/
def Timestamp.strftime_ymd (t : Timestamp) : String :=
  pad4 t.year ++ "-" ++ pad2 t.month ++ "-" ++ pad2 t.day

/-- Row of the `diabetes_entries` table (source model `DiabetesEntry`). -/
structure DiabetesEntry where
  entry_id : String
  username : String
  blood_sugar : ℚ
  meal : String
  exercise : String
  date : Timestamp
  created_at : Timestamp
deriving DecidableEq

/-- Row of the `users` table (source model `User`). -/
structure UserRow where
  username : String
  password_hash : String
  preferred_units : String
deriving DecidableEq

/-- Descending-date comparison used by `order_by(DiabetesEntry.date.desc())`. -/
def dateDesc (a b : DiabetesEntry) : Prop := b.date.key ≤ a.date.key

/-- Ascending-date comparison used by `order_by(DiabetesEntry.date.asc())`. -/
def dateAsc (a b : DiabetesEntry) : Prop := a.date.key ≤ b.date.key

instance : DecidableRel dateDesc := fun a b =>
  inferInstanceAs (Decidable (b.date.key ≤ a.date.key))

instance : DecidableRel dateAsc := fun a b =>
  inferInstanceAs (Decidable (a.date.key ≤ b.date.key))

instance : IsTotal DiabetesEntry dateDesc := ⟨fun a b => Nat.le_total b.date.key a.date.key⟩

instance : IsTotal DiabetesEntry dateAsc := ⟨fun a b => Nat.le_total a.date.key b.date.key⟩

instance : IsTrans DiabetesEntry dateDesc := ⟨fun _ _ _ h1 h2 => Nat.le_trans h2 h1⟩

instance : IsTrans DiabetesEntry dateAsc := ⟨fun _ _ _ h1 h2 => Nat.le_trans h1 h2⟩

/-- Errors surfaced by the data layer (`SQLAlchemyError("Database not available")`
raised by the mock session when the engine could not be initialised). -/
inductive DbError where
  | storeUnavailable
deriving DecidableEq

/-- State of the source `DataManager`: the availability flag set by
`_initialize_database`, the two tables, and the in-process fallback dict
`_fallback_user_units` (modelled as an association list whose most recent
binding shadows older ones, matching dict assignment). -/
structure DataManager where
  db_available : Bool
  users : List UserRow
  entries : List DiabetesEntry
  fallback_user_units : List (String × String)
deriving DecidableEq

/-- Source `DataManager.get_user_preferred_units`: fallback cache first, then
the database (caching a hit), defaulting to mg/dL. Returns the resulting
state as well, since a database hit populates the cache. -/
def DataManager.get_user_preferred_units (dm : DataManager) (username : String) :
    String × DataManager :=
  match dm.fallback_user_units.lookup username with
  | some units => (units, dm)
  | none =>
    if dm.db_available then
      match dm.users.find? (fun r => r.username == username) with
      | some user =>
        if user.preferred_units ≠ "" then
          (user.preferred_units,
           { dm with fallback_user_units :=
              (username, user.preferred_units) :: dm.fallback_user_units })
        else ("mg/dL", dm)
      | none => ("mg/dL", dm)
    else ("mg/dL", dm)

/-- Source `DataManager.update_user_preferred_units`: always writes the
fallback cache first, then best-effort syncs the database row when the store
is available; always returns True. -/
def DataManager.update_user_preferred_units (dm : DataManager)
    (username units : String) : Bool × DataManager :=
  let dm1 := { dm with fallback_user_units := (username, units) :: dm.fallback_user_units }
  if dm1.db_available then
    (true,
     { dm1 with users := dm1.users.map (fun r =>
        if r.username == username then { r with preferred_units := units } else r) })
  else (true, dm1)

/-- Source `DataManager.save_entry`: raises (propagates `SQLAlchemyError`) when
the store is unavailable; otherwise inserts one row and returns its fresh id
(`uuid.uuid4()`, modelled as a counter-based fresh identifier). -/
def DataManager.save_entry (dm : DataManager) (username : String) (blood_sugar : ℚ)
    (meal exercise : String) (date now : Timestamp) :
    Except DbError (String × DataManager) :=
  if dm.db_available then
    let entry_id := "id-" ++ toString dm.entries.length
    .ok (entry_id,
      { dm with entries :=
          dm.entries ++ [⟨entry_id, username, blood_sugar, meal, exercise, date, now⟩] })
  else .error .storeUnavailable

/-- The rows of `diabetes_entries` belonging to one user (the
`filter(DiabetesEntry.username == username)` query). -/
def DataManager.userEntries (dm : DataManager) (username : String) : List DiabetesEntry :=
  dm.entries.filter (fun e => e.username == username)

/-- Source `DataManager.get_user_history`: the user's entries ordered by date
descending; any storage failure degrades to the empty list. -/
def DataManager.get_user_history (dm : DataManager) (username : String) :
    List DiabetesEntry :=
  if dm.db_available then List.insertionSort dateDesc (dm.userEntries username)
  else []

/-- Result shape of `DataManager.get_user_stats`. -/
structure Stats where
  total_entries : ℕ
  avg_blood_sugar : ℚ
  entries_this_week : ℕ
deriving DecidableEq

/-- Source `DataManager.get_user_stats`; `week_ago` is the caller-side
`utcnow() - timedelta(days=7)` bound. Any storage failure, and an empty entry
set, degrade to the all-zero stats record. -/
def DataManager.get_user_stats (dm : DataManager) (username : String)
    (week_ago : Timestamp) : Stats :=
  if dm.db_available then
    let es := dm.userEntries username
    if es.length = 0 then ⟨0, 0, 0⟩
    else
      ⟨es.length,
       UnitConverter.round1 ((es.map (fun e => e.blood_sugar)).sum / es.length),
       (es.filter (fun e => week_ago.key ≤ e.date.key)).length⟩
  else ⟨0, 0, 0⟩

/-- Result shape of `DataManager.get_chart_data`. -/
structure ChartData where
  labels : List String
  data : List ℚ
  dates : List String
deriving DecidableEq

/-- Source `DataManager.get_chart_data`: the user's entries ordered by date
ascending, projected to chart labels, values and ISO dates; empty input and
any storage failure degrade to three empty sequences. -/
def DataManager.get_chart_data (dm : DataManager) (username : String) : ChartData :=
  if dm.db_available then
    let es := List.insertionSort dateAsc (dm.userEntries username)
    if es.isEmpty then ⟨[], [], []⟩
    else
      ⟨es.map (fun e => e.date.strftime_md),
       es.map (fun e => e.blood_sugar),
       es.map (fun e => e.date.strftime_ymd)⟩
  else ⟨[], [], []⟩

/-- Source `DataManager.delete_entry`: True when a row was removed, False when
no row matched — and also False when the store failed, because the source
catches `SQLAlchemyError` and returns False instead of re-raising. -/
def DataManager.delete_entry (dm : DataManager) (entry_id : String) :
    Bool × DataManager :=
  if dm.db_available then
    match dm.entries.find? (fun e => e.entry_id == entry_id) with
    | some _ => (true, { dm with entries := dm.entries.eraseP (fun e => e.entry_id == entry_id) })
    | none => (false, dm)
  else (false, dm)

/-- A sample timestamp used by concrete instantiations. -/
def sampleDate : Timestamp := ⟨2024, 1, 2, 0⟩

/-- A sample stored row used by concrete instantiations. -/
def entryE1 : DiabetesEntry := ⟨"e1", "alice", 120, "toast", "walk", sampleDate, sampleDate⟩

/-- A manager whose backing store is unreachable but whose table holds a row. -/
def dmDownWithRow : DataManager := ⟨false, [], [entryE1], []⟩

/-- A manager whose backing store is reachable and empty. -/
def dmUpEmpty : DataManager := ⟨true, [], [], []⟩

/-- C6: when the backing store is unreachable, the read operations degrade
instead of raising — getHistory returns an empty sequence, getStats the
all-zero record, and getChartSeries three empty sequences. -/
theorem reads_degrade_when_store_down (dm : DataManager) (username : String)
    (week_ago : Timestamp) (hdown : dm.db_available = false) :
    dm.get_user_history username = [] ∧
    dm.get_user_stats username week_ago = ⟨0, 0, 0⟩ ∧
    dm.get_chart_data username = ⟨[], [], []⟩ := by
  refine ⟨?_, ?_, ?_⟩ <;>
    simp [DataManager.get_user_history, DataManager.get_user_stats,
      DataManager.get_chart_data, hdown]

/-- C6 witness: the degraded reads on a concrete unreachable store holding a row. -/
theorem reads_degrade_when_store_down_witness :
    dmDownWithRow.get_user_history "alice" = [] ∧
    dmDownWithRow.get_user_stats "alice" sampleDate = ⟨0, 0, 0⟩ ∧
    dmDownWithRow.get_chart_data "alice" = ⟨[], [], []⟩ :=
  reads_degrade_when_store_down dmDownWithRow "alice" sampleDate rfl

/-- C3 counterexample: with the backing store unreachable and a matching row
present, deleteEntry still returns the boolean False — the same value an
available empty store returns for a nonexistent id — so a store failure is not
distinguishable from 'no matching row' (the source catches `SQLAlchemyError`
and returns False instead of re-raising). -/
theorem delete_entry_swallows_store_failure :
    dmDownWithRow.delete_entry "e1" = (false, dmDownWithRow) ∧
    dmUpEmpty.delete_entry "e1" = (false, dmUpEmpty) ∧
    dmDownWithRow.entries ≠ [] := by
  refine ⟨?_, ?_, ?_⟩
  · simp [DataManager.delete_entry, dmDownWithRow]
  · simp [DataManager.delete_entry, dmUpEmpty]
  · simp [dmDownWithRow]

/-- C3 amended: saveEntry propagates a backing-store failure to the caller as
an explicit error and writes nothing, while deleteEntry degrades: on an
unreachable store it returns False with the state unchanged, exactly the
result produced for a nonexistent id. -/
theorem mutation_failure_semantics (dm : DataManager)
    (hdown : dm.db_available = false) :
    (∀ username blood_sugar meal exercise date now,
      dm.save_entry username blood_sugar meal exercise date now =
        .error .storeUnavailable) ∧
    (∀ entry_id, dm.delete_entry entry_id = (false, dm)) := by
  constructor
  · intro username blood_sugar meal exercise date now
    simp [DataManager.save_entry, hdown]
  · intro entry_id
    simp [DataManager.delete_entry, hdown]

/-- C3 amended witness: the two mutation outcomes on a concrete unreachable
store. -/
theorem mutation_failure_semantics_witness :
    dmDownWithRow.save_entry "alice" 120 "toast" "walk" sampleDate sampleDate =
      .error .storeUnavailable ∧
    dmDownWithRow.delete_entry "e1" = (false, dmDownWithRow) :=
  ⟨(mutation_failure_semantics dmDownWithRow rfl).1 "alice" 120 "toast" "walk"
      sampleDate sampleDate,
   (mutation_failure_semantics dmDownWithRow rfl).2 "e1"⟩

/-- C4: setPreferredUnit writes the in-process cache first and reports success
even when the durable store is unreachable; an immediately following
getPreferredUnit returns the unit just set; the cache is consulted before the
durable store, and mg/dL is the default only when neither has a value. -/
theorem preferred_units_cache_first (dm : DataManager) (username units : String)
    (hu : units = "mg/dL" ∨ units = "mmol/L") :
    (dm.update_user_preferred_units username units).1 = true ∧
    (((dm.update_user_preferred_units username units).2).get_user_preferred_units
        username).1 = units ∧
    (∀ v, dm.fallback_user_units.lookup username = some v →
      (dm.get_user_preferred_units username).1 = v) ∧
    (dm.fallback_user_units.lookup username = none → dm.db_available = false →
      (dm.get_user_preferred_units username).1 = "mg/dL") ∧
    (dm.fallback_user_units.lookup username = none →
      dm.users.find? (fun r => r.username == username) = none →
      (dm.get_user_preferred_units username).1 = "mg/dL") := by
  refine ⟨?_, ?_, ?_, ?_, ?_⟩
  · simp only [DataManager.update_user_preferred_units]
    split <;> rfl
  · simp only [DataManager.update_user_preferred_units]
    split <;> simp [DataManager.get_user_preferred_units, List.lookup]
  · intro v hv
    simp [DataManager.get_user_preferred_units, hv]
  · intro h1 h2
    simp [DataManager.get_user_preferred_units, h1, h2]
  · intro h1 h2
    simp [DataManager.get_user_preferred_units, h1, h2]

/-- C4 witness: on a concrete unreachable store, setting mmol/L for alice
succeeds, the following read returns mmol/L, and before the write the read
defaulted to mg/dL. -/
theorem preferred_units_cache_first_witness :
    (dmDownWithRow.update_user_preferred_units "alice" "mmol/L").1 = true ∧
    (((dmDownWithRow.update_user_preferred_units "alice" "mmol/L").2).get_user_preferred_units
        "alice").1 = "mmol/L" ∧
    (dmDownWithRow.get_user_preferred_units "alice").1 = "mg/dL" := by
  have h := preferred_units_cache_first dmDownWithRow "alice" "mmol/L" (Or.inr rfl)
  exact ⟨h.1, h.2.1, h.2.2.2.1 rfl rfl⟩

/-- C5: with the store reachable, getHistory returns the user's entries ordered
descending by observed date, getChartSeries returns the same entries ordered
ascending with labels, values and ISO dates index-aligned projections of one
sorted sequence, the three chart sequences have equal length, and an empty
entry set yields an empty history and three empty sequences. -/
theorem history_and_chart_ordering (dm : DataManager) (username : String)
    (hav : dm.db_available = true) :
    (List.Sorted dateDesc (dm.get_user_history username) ∧
      (dm.get_user_history username).Perm (dm.userEntries username)) ∧
    (∃ asc, List.Sorted dateAsc asc ∧ asc.Perm (dm.userEntries username) ∧
      (dm.get_chart_data username).labels = asc.map (fun e => e.date.strftime_md) ∧
      (dm.get_chart_data username).data = asc.map (fun e => e.blood_sugar) ∧
      (dm.get_chart_data username).dates = asc.map (fun e => e.date.strftime_ymd)) ∧
    ((dm.get_chart_data username).labels.length =
        (dm.get_chart_data username).data.length ∧
      (dm.get_chart_data username).data.length =
        (dm.get_chart_data username).dates.length) ∧
    (dm.userEntries username = [] →
      dm.get_user_history username = [] ∧ dm.get_chart_data username = ⟨[], [], []⟩) := by
  have hh : dm.get_user_history username =
      List.insertionSort dateDesc (dm.userEntries username) := by
    simp [DataManager.get_user_history, hav]
  have hc : dm.get_chart_data username =
      (let es := List.insertionSort dateAsc (dm.userEntries username)
       if es.isEmpty then ⟨[], [], []⟩
       else ⟨es.map (fun e => e.date.strftime_md),
             es.map (fun e => e.blood_sugar),
             es.map (fun e => e.date.strftime_ymd)⟩) := by
    simp [DataManager.get_chart_data, hav]
  have hcfields :
      (dm.get_chart_data username).labels =
        (List.insertionSort dateAsc (dm.userEntries username)).map
          (fun e => e.date.strftime_md) ∧
      (dm.get_chart_data username).data =
        (List.insertionSort dateAsc (dm.userEntries username)).map
          (fun e => e.blood_sugar) ∧
      (dm.get_chart_data username).dates =
        (List.insertionSort dateAsc (dm.userEntries username)).map
          (fun e => e.date.strftime_ymd) := by
    rw [hc]
    by_cases he : (List.insertionSort dateAsc (dm.userEntries username)).isEmpty
    · rw [List.isEmpty_iff] at he
      simp [he]
    · simp [he]
  refine ⟨⟨?_, ?_⟩, ⟨List.insertionSort dateAsc (dm.userEntries username),
      List.sorted_insertionSort dateAsc (dm.userEntries username),
      List.perm_insertionSort dateAsc (dm.userEntries username),
      hcfields.1, hcfields.2.1, hcfields.2.2⟩, ⟨?_, ?_⟩, ?_⟩
  · rw [hh]; exact List.sorted_insertionSort dateDesc (dm.userEntries username)
  · rw [hh]; exact List.perm_insertionSort dateDesc (dm.userEntries username)
  · rw [hcfields.1, hcfields.2.1]; simp
  · rw [hcfields.2.1, hcfields.2.2]; simp
  · intro hempty
    constructor
    · rw [hh, hempty]; rfl
    · rw [hc, hempty]; rfl

/-- Entry observed on 2024-01-01, used by concrete instantiations. -/
def entryH1 : DiabetesEntry :=
  ⟨"h1", "bob", 100, "cereal", "run", ⟨2024, 1, 1, 0⟩, ⟨2024, 1, 1, 0⟩⟩

/-- Entry observed on 2024-01-02, used by concrete instantiations. -/
def entryH2 : DiabetesEntry :=
  ⟨"h2", "bob", 140, "pasta", "swim", ⟨2024, 1, 2, 0⟩, ⟨2024, 1, 2, 0⟩⟩

/-- A manager whose reachable store holds two entries for bob. -/
def dmUpTwo : DataManager := ⟨true, [], [entryH1, entryH2], []⟩

/-- C5 witness: ordering and alignment on a concrete two-entry store. -/
theorem history_and_chart_ordering_witness :
    (List.Sorted dateDesc (dmUpTwo.get_user_history "bob") ∧
      (dmUpTwo.get_user_history "bob").Perm (dmUpTwo.userEntries "bob")) ∧
    (∃ asc, List.Sorted dateAsc asc ∧ asc.Perm (dmUpTwo.userEntries "bob") ∧
      (dmUpTwo.get_chart_data "bob").labels = asc.map (fun e => e.date.strftime_md) ∧
      (dmUpTwo.get_chart_data "bob").data = asc.map (fun e => e.blood_sugar) ∧
      (dmUpTwo.get_chart_data "bob").dates = asc.map (fun e => e.date.strftime_ymd)) ∧
    ((dmUpTwo.get_chart_data "bob").labels.length =
        (dmUpTwo.get_chart_data "bob").data.length ∧
      (dmUpTwo.get_chart_data "bob").data.length =
        (dmUpTwo.get_chart_data "bob").dates.length) ∧
    (dmUpTwo.userEntries "bob" = [] →
      dmUpTwo.get_user_history "bob" = [] ∧
      dmUpTwo.get_chart_data "bob" = ⟨[], [], []⟩) :=
  history_and_chart_ordering dmUpTwo "bob" rfl

/-- Source constant `GPT_ERROR_MESSAGE`. -/
def GPT_ERROR_MESSAGE : String := "GPT API is not available. Here is a basic recommendation:\n"

/-- Python `text.split()`: split on whitespace, dropping empty pieces. -/
def py_split_ws (text : String) : List String :=
  ((text.toList.splitOnP Char.isWhitespace).map (fun l => String.mk l)).filter
    (fun s => s ≠ "")

/-- Source `AIRecommendationEngine._limit_response_length`. -/
def limit_response_length (text : String) (max_words : ℕ) : String :=
  if text = "" then text
  else if (py_split_ws text).length ≤ max_words then text
  else String.intercalate " " ((py_split_ws text).take max_words) ++ "..."

/-- State of the source `AIRecommendationEngine`: the configured API key, and
the outcome of a call to the external generator (`some text` when the call
returns, `none` when it is unavailable or raises). -/
structure AIRecommendationEngine where
  api_key : Option String
  external_response : Option String
deriving DecidableEq

namespace AIRecommendationEngine

/-- Source `AIRecommendationEngine._get_basic_recommendation`. -/
def get_basic_recommendation (blood_sugar : ℚ) : String :=
  if blood_sugar < 70 then
    "Your blood sugar is low (" ++ toString blood_sugar ++ " mg/dL). Consider having a small snack with carbohydrates and protein. Monitor your levels closely and consult your healthcare provider if this happens frequently."
  else if blood_sugar > 200 then
    "Your blood sugar is elevated (" ++ toString blood_sugar ++ " mg/dL). Consider increasing your physical activity, monitoring your carbohydrate intake, and staying hydrated. If this persists, consult your healthcare provider."
  else
    "Your blood sugar level of " ++ toString blood_sugar ++ " mg/dL looks good! Keep up with your current routine. Remember to maintain regular meal times, stay active, and monitor your levels consistently."

/-- Source `AIRecommendationEngine._get_basic_meal_suggestions`. -/
def get_basic_meal_suggestions (blood_sugar : ℚ) : String :=
  if blood_sugar < 100 then
    limit_response_length "\n            Meal Suggestions for Normal Blood Sugar:\n\n            Breakfast: Oatmeal with berries and nuts, or whole grain toast with avocado\n            Lunch: Grilled chicken salad with mixed greens and olive oil dressing\n            Dinner: Baked salmon with quinoa and steamed vegetables\n            Snacks: Greek yogurt with berries, or apple with almond butter\n            " 200
  else if blood_sugar < 140 then
    limit_response_length "\n            Meal Suggestions for Post-Meal Normal Blood Sugar:\n\n            Breakfast: Greek yogurt with granola and fruit\n            Lunch: Turkey and vegetable wrap with whole grain tortilla\n            Dinner: Lean beef stir-fry with brown rice and vegetables\n            Snacks: Hummus with carrot sticks, or mixed nuts\n            " 200
  else
    limit_response_length "\n            Meal Suggestions for Elevated Blood Sugar:\n\n            Breakfast: Scrambled eggs with spinach and whole grain toast\n            Lunch: Grilled fish with quinoa and roasted vegetables\n            Dinner: Chicken breast with sweet potato and green beans\n            Snacks: Cottage cheese with cucumber, or hard-boiled eggs\n            " 200

/-- Source `AIRecommendationEngine._get_basic_exercise_recommendations`. -/
def get_basic_exercise_recommendations (blood_sugar : ℚ) : String :=
  if blood_sugar < 70 then
    limit_response_length "Your blood sugar is low. Avoid intense exercise until your levels stabilize. Consider light walking or gentle stretching after having a snack." 200
  else if blood_sugar > 250 then
    limit_response_length "Your blood sugar is high. Avoid intense exercise and check for ketones if you have type 1 diabetes. Light walking may help lower blood sugar gradually." 200
  else
    limit_response_length ("Great time for exercise! Your blood sugar of " ++ toString blood_sugar ++ " mg/dL is in a safe range. Consider 30 minutes of moderate activity like walking, swimming, or cycling. Don\x27t forget to monitor your levels during and after exercise.") 200

/-- Source `AIRecommendationEngine.get_recommendation`: canned fallback when no
API key is configured or the external call errors; otherwise the external
text. -/
def get_recommendation (engine : AIRecommendationEngine) (username : String)
    (blood_sugar : ℚ) (meal exercise : String) : String :=
  match engine.api_key with
  | none => GPT_ERROR_MESSAGE ++ get_basic_recommendation blood_sugar
  | some _ =>
    match engine.external_response with
    | some text => text
    | none => GPT_ERROR_MESSAGE ++ get_basic_recommendation blood_sugar

/-- Source `AIRecommendationEngine.get_meal_suggestions`. -/
def get_meal_suggestions (engine : AIRecommendationEngine) (blood_sugar : ℚ)
    (preferences : String) : String :=
  match engine.api_key with
  | none => GPT_ERROR_MESSAGE ++ get_basic_meal_suggestions blood_sugar
  | some _ =>
    match engine.external_response with
    | some text => text
    | none => GPT_ERROR_MESSAGE ++ get_basic_meal_suggestions blood_sugar

/-- Source `AIRecommendationEngine.get_exercise_recommendations`; note the
error path returns the basic text without the GPT_ERROR_MESSAGE prelude. -/
def get_exercise_recommendations (engine : AIRecommendationEngine)
    (blood_sugar : ℚ) (current_exercise : String) : String :=
  match engine.api_key with
  | none => GPT_ERROR_MESSAGE ++ get_basic_exercise_recommendations blood_sugar
  | some _ =>
    match engine.external_response with
    | some text => text
    | none => get_basic_exercise_recommendations blood_sugar

end AIRecommendationEngine

/-- The glucose band actually used by the basic recommendation:
0 when below 70, 2 when above 200, else 1 (the 70–200 band). -/
def recBand (blood_sugar : ℚ) : ℕ :=
  if blood_sugar < 70 then 0 else if blood_sugar > 200 then 2 else 1

/-- The glucose band actually used by the basic meal suggestions:
0 when below 100, 1 when in [100, 140), else 2. -/
def mealBand (blood_sugar : ℚ) : ℕ :=
  if blood_sugar < 100 then 0 else if blood_sugar < 140 then 1 else 2

/-- The glucose band actually used by the basic exercise recommendations:
0 when below 70, 2 when above 250, else 1 (the 70–250 band). -/
def exBand (blood_sugar : ℚ) : ℕ :=
  if blood_sugar < 70 then 0 else if blood_sugar > 250 then 2 else 1

/-- The basic recommendation text as a function of the band. -/
def recTemplate (band : ℕ) (blood_sugar : ℚ) : String :=
  match band with
  | 0 => "Your blood sugar is low (" ++ toString blood_sugar ++ " mg/dL). Consider having a small snack with carbohydrates and protein. Monitor your levels closely and consult your healthcare provider if this happens frequently."
  | 2 => "Your blood sugar is elevated (" ++ toString blood_sugar ++ " mg/dL). Consider increasing your physical activity, monitoring your carbohydrate intake, and staying hydrated. If this persists, consult your healthcare provider."
  | _ => "Your blood sugar level of " ++ toString blood_sugar ++ " mg/dL looks good! Keep up with your current routine. Remember to maintain regular meal times, stay active, and monitor your levels consistently."

/-- The basic meal-suggestion text as a function of the band alone. -/
def mealTemplate (band : ℕ) : String :=
  match band with
  | 0 => limit_response_length "\n            Meal Suggestions for Normal Blood Sugar:\n\n            Breakfast: Oatmeal with berries and nuts, or whole grain toast with avocado\n            Lunch: Grilled chicken salad with mixed greens and olive oil dressing\n            Dinner: Baked salmon with quinoa and steamed vegetables\n            Snacks: Greek yogurt with berries, or apple with almond butter\n            " 200
  | 1 => limit_response_length "\n            Meal Suggestions for Post-Meal Normal Blood Sugar:\n\n            Breakfast: Greek yogurt with granola and fruit\n            Lunch: Turkey and vegetable wrap with whole grain tortilla\n            Dinner: Lean beef stir-fry with brown rice and vegetables\n            Snacks: Hummus with carrot sticks, or mixed nuts\n            " 200
  | _ => limit_response_length "\n            Meal Suggestions for Elevated Blood Sugar:\n\n            Breakfast: Scrambled eggs with spinach and whole grain toast\n            Lunch: Grilled fish with quinoa and roasted vegetables\n            Dinner: Chicken breast with sweet potato and green beans\n            Snacks: Cottage cheese with cucumber, or hard-boiled eggs\n            " 200

/-- The basic exercise text as a function of the band. -/
def exTemplate (band : ℕ) (blood_sugar : ℚ) : String :=
  match band with
  | 0 => limit_response_length "Your blood sugar is low. Avoid intense exercise until your levels stabilize. Consider light walking or gentle stretching after having a snack." 200
  | 2 => limit_response_length "Your blood sugar is high. Avoid intense exercise and check for ketones if you have type 1 diabetes. Light walking may help lower blood sugar gradually." 200
  | _ => limit_response_length ("Great time for exercise! Your blood sugar of " ++ toString blood_sugar ++ " mg/dL is in a safe range. Consider 30 minutes of moderate activity like walking, swimming, or cycling. Don\x27t forget to monitor your levels during and after exercise.") 200

theorem append3_ne_empty (a b c : String) (ha : a.length ≠ 0) : a ++ b ++ c ≠ "" := by
  intro h
  have hl := congrArg String.length h
  rw [String.length_append, String.length_append] at hl
  have h0 : ("" : String).length = 0 := rfl
  rw [h0] at hl
  omega

theorem limit_response_length_ne_empty (text : String) (n : ℕ) (h : text ≠ "") :
    limit_response_length text n ≠ "" := by
  unfold limit_response_length
  rw [if_neg h]
  split
  · exact h
  · intro hcontra
    have hl := congrArg String.length hcontra
    rw [String.length_append] at hl
    have h0 : ("" : String).length = 0 := rfl
    have h3 : ("..." : String).length = 3 := rfl
    rw [h0, h3] at hl
    omega

/-- C9 counterexample: 80 and 120 both lie in the claimed 70–200 band, yet the
canned meal-suggestion texts for them differ — the meal fallback is keyed by
the bands below 100 / 100–140 / at least 140, not by the claimed bands. -/
theorem meal_bands_counterexample :
    AIRecommendationEngine.get_basic_meal_suggestions 80 ≠
      AIRecommendationEngine.get_basic_meal_suggestions 120 ∧
    (70 : ℚ) ≤ 80 ∧ (80 : ℚ) ≤ 200 ∧ (70 : ℚ) ≤ 120 ∧ (120 : ℚ) ≤ 200 := by
  refine ⟨?_, by norm_num, by norm_num, by norm_num, by norm_num⟩
  norm_num [AIRecommendationEngine.get_basic_meal_suggestions]
  decide

/-- C9 amended: whenever the external generator is unavailable (no API key) or
errors, every gateway method returns deterministic non-empty canned text keyed
off glucose bands — below 70 / 70–200 / above 200 for recommendations, below
100 / 100–140 / at least 140 for meal suggestions, and below 70 / 70–250 /
above 250 for exercise — and the functions are total, so no exception reaches
the caller (the exercise error path omits the GPT_ERROR_MESSAGE prelude). -/
theorem recommendation_fallbacks (blood_sugar : ℚ)
    (username meal exercise preferences current_exercise key : String)
    (r : Option String) :
    (AIRecommendationEngine.get_recommendation ⟨none, r⟩ username blood_sugar
        meal exercise =
      GPT_ERROR_MESSAGE ++ recTemplate (recBand blood_sugar) blood_sugar) ∧
    (AIRecommendationEngine.get_recommendation ⟨some key, none⟩ username
        blood_sugar meal exercise =
      GPT_ERROR_MESSAGE ++ recTemplate (recBand blood_sugar) blood_sugar) ∧
    (AIRecommendationEngine.get_meal_suggestions ⟨none, r⟩ blood_sugar
        preferences =
      GPT_ERROR_MESSAGE ++ mealTemplate (mealBand blood_sugar)) ∧
    (AIRecommendationEngine.get_meal_suggestions ⟨some key, none⟩ blood_sugar
        preferences =
      GPT_ERROR_MESSAGE ++ mealTemplate (mealBand blood_sugar)) ∧
    (AIRecommendationEngine.get_exercise_recommendations ⟨none, r⟩ blood_sugar
        current_exercise =
      GPT_ERROR_MESSAGE ++ exTemplate (exBand blood_sugar) blood_sugar) ∧
    (AIRecommendationEngine.get_exercise_recommendations ⟨some key, none⟩
        blood_sugar current_exercise =
      exTemplate (exBand blood_sugar) blood_sugar) ∧
    AIRecommendationEngine.get_basic_recommendation blood_sugar ≠ "" ∧
    AIRecommendationEngine.get_basic_meal_suggestions blood_sugar ≠ "" ∧
    AIRecommendationEngine.get_basic_exercise_recommendations blood_sugar ≠ "" := by
  have hrec : AIRecommendationEngine.get_basic_recommendation blood_sugar =
      recTemplate (recBand blood_sugar) blood_sugar := by
    unfold AIRecommendationEngine.get_basic_recommendation recBand
    split_ifs <;> rfl
  have hmeal : AIRecommendationEngine.get_basic_meal_suggestions blood_sugar =
      mealTemplate (mealBand blood_sugar) := by
    unfold AIRecommendationEngine.get_basic_meal_suggestions mealBand
    split_ifs <;> rfl
  have hex : AIRecommendationEngine.get_basic_exercise_recommendations blood_sugar =
      exTemplate (exBand blood_sugar) blood_sugar := by
    unfold AIRecommendationEngine.get_basic_exercise_recommendations exBand
    split_ifs <;> rfl
  have hrecne : AIRecommendationEngine.get_basic_recommendation blood_sugar ≠ "" := by
    unfold AIRecommendationEngine.get_basic_recommendation
    split_ifs <;> exact append3_ne_empty _ _ _ (by decide)
  have hmealne : AIRecommendationEngine.get_basic_meal_suggestions blood_sugar ≠ "" := by
    unfold AIRecommendationEngine.get_basic_meal_suggestions
    split_ifs <;> exact limit_response_length_ne_empty _ _ (by decide)
  have hexne : AIRecommendationEngine.get_basic_exercise_recommendations blood_sugar ≠ "" := by
    unfold AIRecommendationEngine.get_basic_exercise_recommendations
    split_ifs
    · exact limit_response_length_ne_empty _ _ (by decide)
    · exact limit_response_length_ne_empty _ _ (by decide)
    · exact limit_response_length_ne_empty _ _ (append3_ne_empty _ _ _ (by decide))
  refine ⟨?_, ?_, ?_, ?_, ?_, ?_, hrecne, hmealne, hexne⟩
  · show GPT_ERROR_MESSAGE ++ AIRecommendationEngine.get_basic_recommendation blood_sugar = _
    rw [hrec]
  · show GPT_ERROR_MESSAGE ++ AIRecommendationEngine.get_basic_recommendation blood_sugar = _
    rw [hrec]
  · show GPT_ERROR_MESSAGE ++ AIRecommendationEngine.get_basic_meal_suggestions blood_sugar = _
    rw [hmeal]
  · show GPT_ERROR_MESSAGE ++ AIRecommendationEngine.get_basic_meal_suggestions blood_sugar = _
    rw [hmeal]
  · show GPT_ERROR_MESSAGE ++ AIRecommendationEngine.get_basic_exercise_recommendations blood_sugar = _
    rw [hex]
  · show AIRecommendationEngine.get_basic_exercise_recommendations blood_sugar = _
    rw [hex]

/-- C9 amended witness: the fallback equalities and non-emptiness at glucose 80
with concrete gateway arguments. -/
theorem recommendation_fallbacks_witness :
    (AIRecommendationEngine.get_recommendation ⟨none, none⟩ "bob" 80 "m" "e" =
      GPT_ERROR_MESSAGE ++ recTemplate (recBand 80) 80) ∧
    AIRecommendationEngine.get_basic_meal_suggestions 80 ≠ "" :=
  ⟨(recommendation_fallbacks 80 "bob" "m" "e" "p" "c" "k" none).1,
   (recommendation_fallbacks 80 "bob" "m" "e" "p" "c" "k" none).2.2.2.2.2.2.2.1⟩

/-- Python truthiness for the string fields read from the request JSON
(a missing field is the falsy None, modelled as the empty string). -/
def truthyStr (s : String) : Bool := s != ""

/-- Python truthiness for the numeric blood_sugar field: 0 is falsy. -/
def truthyNum (q : ℚ) : Bool := q != 0

/-- Numeric value of a decimal digit character. -/
def digitVal (c : Char) : ℕ := c.toNat - 48

/-- Models `datetime.fromisoformat(date.replace('Z', '+00:00'))` on well-formed
ISO strings: the calendar fields are decoded from the fixed digit positions of
`YYYY-MM-DD...`; no claim inspects the sub-day component. -/
def parse_isoformat (s : String) : Timestamp :=
  let l := s.toList
  { year := digitVal (l.getD 0 '0') * 1000 + digitVal (l.getD 1 '0') * 100 +
      digitVal (l.getD 2 '0') * 10 + digitVal (l.getD 3 '0')
    month := digitVal (l.getD 5 '0') * 10 + digitVal (l.getD 6 '0')
    day := digitVal (l.getD 8 '0') * 10 + digitVal (l.getD 9 '0')
    tod := 0 }

/-- Request body of `POST /api/log-entry`; `units` carries the
`data.get("units", "mg/dL")` default when the caller omitted it. -/
structure LogEntryRequest where
  username : String
  blood_sugar : ℚ
  meal : String
  exercise : String
  date : String
  units : String
deriving DecidableEq

/-- Responses of the log-entry route: 400 "All fields are required", the 400
range message (min, max, unit mg/dL), the 500 exception path, and the 201
success payload. -/
inductive LogEntryResult where
  | missingFields
  | outOfRange (min_val max_val : ℚ)
  | serverError
  | saved (entry_id recommendation : String)
deriving DecidableEq

/-- Source route `log_entry` in `app.py`: truthiness presence check, read of
the user's preferred units, conversion of the input to canonical mg/dL,
validation against the canonical range, the durable insert, and the
recommendation (computed on the value converted to the preferred units). -/
def log_entry (dm : DataManager) (engine : AIRecommendationEngine)
    (req : LogEntryRequest) (now : Timestamp) : LogEntryResult × DataManager :=
  if !(truthyStr req.username && truthyNum req.blood_sugar && truthyStr req.meal &&
      truthyStr req.exercise && truthyStr req.date) then
    (.missingFields, dm)
  else
    let user_units := (dm.get_user_preferred_units req.username).1
    let dm1 := (dm.get_user_preferred_units req.username).2
    match (if req.units ≠ "mg/dL" then
        UnitConverter.convert_to_user_units req.blood_sugar req.units "mg/dL"
      else .ok req.blood_sugar) with
    | .error _ => (.serverError, dm1)
    | .ok blood_sugar_mg_dl =>
      match UnitConverter.get_validation_range "mg/dL" with
      | .error _ => (.serverError, dm1)
      | .ok (min_val, max_val) =>
        if blood_sugar_mg_dl < min_val ∨ blood_sugar_mg_dl > max_val then
          (.outOfRange min_val max_val, dm1)
        else
          match dm1.save_entry req.username blood_sugar_mg_dl req.meal req.exercise
              (parse_isoformat req.date) now with
          | .error _ => (.serverError, dm1)
          | .ok (entry_id, dm2) =>
            match (if user_units ≠ "mg/dL" then
                UnitConverter.convert_to_user_units blood_sugar_mg_dl "mg/dL" user_units
              else .ok blood_sugar_mg_dl) with
            | .error _ => (.serverError, dm2)
            | .ok blood_sugar_for_ai =>
              (.saved entry_id
                (engine.get_recommendation req.username blood_sugar_for_ai
                  req.meal req.exercise), dm2)

/-- Source route `get_meal_suggestions` in `app.py`: truthiness check on
blood_sugar, then the gateway call. -/
def meal_suggestions_route (engine : AIRecommendationEngine) (blood_sugar : ℚ)
    (preferences : String) : Except String String :=
  if !truthyNum blood_sugar then .error "Blood sugar level is required"
  else .ok (engine.get_meal_suggestions blood_sugar preferences)

/-- C10: a log-entry request whose blood_sugar is numerically zero, or any of
whose username, meal, exercise or date is empty, fails with the missing-field
error (400 "All fields are required") before anything is converted, validated
or persisted — field presence is a truthiness check, so zero glucose is
treated as an absent field; the meal-suggestions endpoint rejects zero
blood_sugar the same way. -/
theorem log_entry_truthiness (dm : DataManager) (engine : AIRecommendationEngine)
    (req : LogEntryRequest) (now : Timestamp)
    (h : req.blood_sugar = 0 ∨ req.username = "" ∨ req.meal = "" ∨
      req.exercise = "" ∨ req.date = "") :
    log_entry dm engine req now = (.missingFields, dm) ∧
    ∀ (engine2 : AIRecommendationEngine) (preferences : String),
      meal_suggestions_route engine2 0 preferences =
        .error "Blood sugar level is required" := by
  constructor
  · have hcond : (truthyStr req.username && truthyNum req.blood_sugar &&
        truthyStr req.meal && truthyStr req.exercise && truthyStr req.date) = false := by
      rcases h with h | h | h | h | h <;> simp [truthyStr, truthyNum, h]
    unfold log_entry
    rw [hcond]
    rfl
  · intro engine2 preferences
    simp [meal_suggestions_route, truthyNum]

/-- The engine with no configured API key, used by concrete instantiations. -/
def engineNoKey : AIRecommendationEngine := ⟨none, none⟩

/-- A well-formed mg/dL log-entry request with the given glucose value. -/
def reqOk (bs : ℚ) : LogEntryRequest :=
  ⟨"alice", bs, "toast", "walk", "2024-01-02T10:00:00", "mg/dL"⟩

/-- A log-entry request whose blood_sugar is zero and all other fields present. -/
def reqZero : LogEntryRequest :=
  ⟨"alice", 0, "toast", "walk", "2024-01-02T10:00:00", "mg/dL"⟩

/-- C10 witness: the zero-glucose request is rejected as missing fields on a
concrete reachable store, and the meal endpoint rejects zero the same way. -/
theorem log_entry_truthiness_witness :
    log_entry dmUpEmpty engineNoKey reqZero sampleDate = (.missingFields, dmUpEmpty) ∧
    meal_suggestions_route engineNoKey 0 "" = .error "Blood sugar level is required" := by
  have h := log_entry_truthiness dmUpEmpty engineNoKey reqZero sampleDate (Or.inl rfl)
  exact ⟨h.1, h.2 engineNoKey ""⟩

theorem get_user_preferred_units_state (dm : DataManager) (username : String) :
    ∃ fb, (dm.get_user_preferred_units username).2 =
      { dm with fallback_user_units := fb } := by
  unfold DataManager.get_user_preferred_units
  split
  · exact ⟨dm.fallback_user_units, rfl⟩
  · split
    · split
      · split
        · exact ⟨_, rfl⟩
        · exact ⟨dm.fallback_user_units, rfl⟩
      · exact ⟨dm.fallback_user_units, rfl⟩
    · exact ⟨dm.fallback_user_units, rfl⟩

theorem log_entry_semantics_aux (dm : DataManager) (engine : AIRecommendationEngine)
    (req : LogEntryRequest) (now : Timestamp) (c : ℚ)
    (hfields : (truthyStr req.username && truthyNum req.blood_sugar && truthyStr req.meal &&
      truthyStr req.exercise && truthyStr req.date) = true)
    (hconv : (if req.units ≠ "mg/dL" then
        UnitConverter.convert_to_user_units req.blood_sugar req.units "mg/dL"
      else .ok req.blood_sugar) = .ok c) :
    ((log_entry dm engine req now).1 = .outOfRange 50 500 ↔ (c < 50 ∨ c > 500)) ∧
    ((c < 50 ∨ c > 500) → (log_entry dm engine req now).2.entries = dm.entries) ∧
    (dm.db_available = true → ¬(c < 50 ∨ c > 500) →
      (log_entry dm engine req now).2.entries = dm.entries ++
        [⟨"id-" ++ toString dm.entries.length, req.username, c, req.meal,
          req.exercise, parse_isoformat req.date, now⟩]) := by
  obtain ⟨fb, hfb⟩ := get_user_preferred_units_state dm req.username
  by_cases hc : c < 50 ∨ c > 500
  · have heq : log_entry dm engine req now =
        (.outOfRange 50 500, { dm with fallback_user_units := fb }) := by
      simp only [log_entry, hfields, Bool.not_true, hfb, hconv,
        UnitConverter.get_validation_range]
      simp [hc]
    refine ⟨?_, ?_, ?_⟩
    · rw [heq]; simpa using hc
    · intro _; rw [heq]
    · intro _ hcn; exact absurd hc hcn
  · by_cases hdb : dm.db_available = true
    · have heq2 : (log_entry dm engine req now).2.entries = dm.entries ++
              [⟨"id-" ++ toString dm.entries.length, req.username, c, req.meal,
                req.exercise, parse_isoformat req.date, now⟩] ∧
          ((log_entry dm engine req now).1 = .serverError ∨
            ∃ eid rec, (log_entry dm engine req now).1 = .saved eid rec) := by
        simp only [log_entry, hfields, Bool.not_true, hfb, hconv,
          UnitConverter.get_validation_range, DataManager.save_entry]
        simp [hc, hdb]
        refine ⟨?_, ?_⟩
        · split <;> rfl
        · split
          · exact Or.inl rfl
          · exact Or.inr ⟨_, _, rfl⟩
      refine ⟨?_, ?_, ?_⟩
      · rcases heq2.2 with h1 | ⟨eid, rec, h1⟩ <;> rw [h1] <;> simp [hc]
      · intro h; exact absurd h hc
      · intro _ _; rw [heq2.1]
    · have heq : log_entry dm engine req now =
          (.serverError, { dm with fallback_user_units := fb }) := by
        simp only [log_entry, hfields, Bool.not_true, hfb, hconv,
          UnitConverter.get_validation_range, DataManager.save_entry]
        simp [hc, hdb]
      refine ⟨?_, ?_, ?_⟩
      · rw [heq]; simp [hc]
      · intro h; exact absurd h hc
      · intro h _; exact absurd h hdb

/-- C1: for a log-entry request whose fields are all present and whose input
unit is supported, the value is first converted to canonical mg/dL and that
converted value c is validated against the inclusive canonical range: the
request fails with the out-of-range error (min 50, max 500, in mg/dL) exactly
when c < 50 or c > 500; on failure no row is written; otherwise, with the
store reachable, exactly the canonical row is appended. -/
theorem log_entry_out_of_range_iff (dm : DataManager) (engine : AIRecommendationEngine)
    (req : LogEntryRequest) (now : Timestamp)
    (hfields : (truthyStr req.username && truthyNum req.blood_sugar && truthyStr req.meal &&
      truthyStr req.exercise && truthyStr req.date) = true)
    (hunit : req.units = "mg/dL" ∨ req.units = "mmol/L") :
    ∃ c, (if req.units ≠ "mg/dL" then
        UnitConverter.convert_to_user_units req.blood_sugar req.units "mg/dL"
      else .ok req.blood_sugar) = .ok c ∧
      ((log_entry dm engine req now).1 = .outOfRange 50 500 ↔ (c < 50 ∨ c > 500)) ∧
      ((c < 50 ∨ c > 500) → (log_entry dm engine req now).2.entries = dm.entries) ∧
      (dm.db_available = true → ¬(c < 50 ∨ c > 500) →
        (log_entry dm engine req now).2.entries = dm.entries ++
          [⟨"id-" ++ toString dm.entries.length, req.username, c, req.meal,
            req.exercise, parse_isoformat req.date, now⟩]) := by
  rcases hunit with hu | hu
  · have hconv : (if req.units ≠ "mg/dL" then
        UnitConverter.convert_to_user_units req.blood_sugar req.units "mg/dL"
      else .ok req.blood_sugar) = .ok req.blood_sugar := by
      simp [hu]
    exact ⟨req.blood_sugar, hconv,
      log_entry_semantics_aux dm engine req now req.blood_sugar hfields hconv⟩
  · have hconv : (if req.units ≠ "mg/dL" then
        UnitConverter.convert_to_user_units req.blood_sugar req.units "mg/dL"
      else .ok req.blood_sugar) =
        .ok (UnitConverter.mmol_l_to_mg_dl req.blood_sugar) := by
      simp [hu, UnitConverter.convert_to_user_units]
    exact ⟨UnitConverter.mmol_l_to_mg_dl req.blood_sugar, hconv,
      log_entry_semantics_aux dm engine req now
        (UnitConverter.mmol_l_to_mg_dl req.blood_sugar) hfields hconv⟩

/-- C1 witness: on a concrete reachable empty store, 49.9 mg/dL fails with the
out-of-range error leaving the table unchanged, while 50.0 and 500.0 pass
validation and append their canonical rows. -/
theorem log_entry_out_of_range_iff_witness :
    (log_entry dmUpEmpty engineNoKey (reqOk (499/10)) sampleDate).1 =
      .outOfRange 50 500 ∧
    (log_entry dmUpEmpty engineNoKey (reqOk (499/10)) sampleDate).2.entries =
      dmUpEmpty.entries ∧
    (log_entry dmUpEmpty engineNoKey (reqOk 50) sampleDate).2.entries =
      dmUpEmpty.entries ++
        [⟨"id-" ++ toString dmUpEmpty.entries.length, "alice", 50, "toast", "walk",
          parse_isoformat "2024-01-02T10:00:00", sampleDate⟩] ∧
    (log_entry dmUpEmpty engineNoKey (reqOk 500) sampleDate).2.entries =
      dmUpEmpty.entries ++
        [⟨"id-" ++ toString dmUpEmpty.entries.length, "alice", 500, "toast", "walk",
          parse_isoformat "2024-01-02T10:00:00", sampleDate⟩] := by
  have hf1 : (truthyStr (reqOk (499/10)).username && truthyNum (reqOk (499/10)).blood_sugar &&
      truthyStr (reqOk (499/10)).meal && truthyStr (reqOk (499/10)).exercise &&
      truthyStr (reqOk (499/10)).date) = true := by
    simp [reqOk, truthyStr, truthyNum]
  have hf2 : (truthyStr (reqOk 50).username && truthyNum (reqOk 50).blood_sugar &&
      truthyStr (reqOk 50).meal && truthyStr (reqOk 50).exercise &&
      truthyStr (reqOk 50).date) = true := by
    simp [reqOk, truthyStr, truthyNum]
  have hf3 : (truthyStr (reqOk 500).username && truthyNum (reqOk 500).blood_sugar &&
      truthyStr (reqOk 500).meal && truthyStr (reqOk 500).exercise &&
      truthyStr (reqOk 500).date) = true := by
    simp [reqOk, truthyStr, truthyNum]
  obtain ⟨c1, hc1, hiff1, hout1, _⟩ :=
    log_entry_out_of_range_iff dmUpEmpty engineNoKey (reqOk (499/10)) sampleDate hf1
      (Or.inl rfl)
  obtain ⟨c2, hc2, _, _, hin2⟩ :=
    log_entry_out_of_range_iff dmUpEmpty engineNoKey (reqOk 50) sampleDate hf2
      (Or.inl rfl)
  obtain ⟨c3, hc3, _, _, hin3⟩ :=
    log_entry_out_of_range_iff dmUpEmpty engineNoKey (reqOk 500) sampleDate hf3
      (Or.inl rfl)
  simp [reqOk] at hc1 hc2 hc3
  subst hc1
  subst hc2
  subst hc3
  refine ⟨?_, ?_, ?_, ?_⟩
  · exact hiff1.mpr (by norm_num)
  · exact hout1 (by norm_num)
  · exact hin2 rfl (by norm_num)
  · exact hin3 rfl (by norm_num)
